import Mathlib

/-!
Shallow embedding of the POML python binding's message model and format
converters (`python/poml/api.py`), together with theorems checking the
natural-language specification of that layer against the code.

JSON values are modelled by the inductive `Json`; Python dicts are modelled
as association lists in insertion order.  `json.dumps` (with its default
separators and `ensure_ascii=True`) is modelled by `Json.dumps`.
-/

/-- Model of a Python JSON value (floats are not needed by any claim and are
omitted; integers model JSON numbers). -/
inductive Json where
  | null
  | bool (b : Bool)
  | num (n : Int)
  | str (s : String)
  | arr (items : List Json)
  | obj (fields : List (String × Json))

/-- Hexadecimal digit character, lowercase, as produced by Python's json
encoder in escape sequences. -/
def hexDigit (n : Nat) : Char :=
  if n < 10 then Char.ofNat (48 + n) else Char.ofNat (87 + n)

/-- Four-digit lowercase hex rendering of a code unit, as in a JSON escape. -/
def hex4 (n : Nat) : String :=
  String.mk [hexDigit (n / 4096 % 16), hexDigit (n / 256 % 16), hexDigit (n / 16 % 16), hexDigit (n % 16)]

/-- Escape of a single character inside a JSON string literal, following
Python's `json.dumps` with `ensure_ascii=True` (non-BMP code points become
surrogate pairs). -/
def jsonEscapeChar (c : Char) : String :=
  if c = '"' then "\\\""
  else if c = '\\' then "\\\\"
  else if c = '\n' then "\\n"
  else if c = '\r' then "\\r"
  else if c = '\t' then "\\t"
  else if c.toNat = 8 then "\\b"
  else if c.toNat = 12 then "\\f"
  else if c.toNat < 32 || c.toNat > 126 then
    if c.toNat < 65536 then "\\u" ++ hex4 c.toNat
    else "\\u" ++ hex4 (55296 + (c.toNat - 65536) / 1024) ++ "\\u" ++ hex4 (56320 + (c.toNat - 65536) % 1024)
  else String.singleton c

/-- JSON string literal for `s`, as produced by Python's `json.dumps`. -/
def jsonQuote (s : String) : String :=
  "\"" ++ String.join (s.data.map jsonEscapeChar) ++ "\""

mutual

/-- Model of Python's `json.dumps` with default arguments (separators
`", "` and `": "`).  `Json.dumpsList` and `Json.dumpsFields` spell out the
comma-joining of array items and object entries. -/
def Json.dumps : Json → String
  | .null => "null"
  | .bool true => "true"
  | .bool false => "false"
  | .num n => toString n
  | .str s => jsonQuote s
  | .arr items => "[" ++ Json.dumpsList items ++ "]"
  | .obj fields => "\x7b" ++ Json.dumpsFields fields ++ "\x7d"

/-- Comma-separated rendering of a JSON array's items. -/
def Json.dumpsList : List Json → String
  | [] => ""
  | [x] => Json.dumps x
  | x :: rest => Json.dumps x ++ ", " ++ Json.dumpsList rest

/-- Comma-separated rendering of a JSON object's `key: value` entries. -/
def Json.dumpsFields : List (String × Json) → String
  | [] => ""
  | [(k, v)] => jsonQuote k ++ ": " ++ Json.dumps v
  | (k, v) :: rest => jsonQuote k ++ ": " ++ Json.dumps v ++ ", " ++ Json.dumpsFields rest

end

/-- Lookup in an association list modelling a Python dict (`d.get(key)`). -/
def jsonLookup : List (String × Json) → String → Option Json
  | [], _ => none
  | (k, v) :: rest, key => if k = key then some v else jsonLookup rest key

/-- Lookup of a key in a JSON object (`d.get(key)` on a parsed object). -/
def Json.getKey : Json → String → Option Json
  | Json.obj fields, key => jsonLookup fields key
  | _, _ => none

/-- Speaker of a message, the `Speaker` Literal type of `api.py`. -/
inductive Speaker where
  | human
  | ai
  | system
  | tool
deriving DecidableEq

/-- String value carried by the `Speaker` literal. -/
def speakerStr : Speaker → String
  | .human => "human"
  | .ai => "ai"
  | .system => "system"
  | .tool => "tool"

/-- Model of the `speaker_to_role` mapping in `_poml_response_to_openai_chat`.
The Python dict lookup cannot miss because `Speaker` is a closed Literal
type validated by pydantic. -/
def speaker_to_role : Speaker → String
  | .human => "user"
  | .ai => "assistant"
  | .system => "system"
  | .tool => "tool"

/-- Model of the pydantic `ContentMultiMedia` model. -/
structure ContentMultiMedia where
  type : String
  base64 : String
  alt : Option String
deriving DecidableEq

/-- Model of the pydantic `ContentMultiMediaToolRequest` model (the `type`
discriminator literal is implicit in the constructor). -/
structure ContentMultiMediaToolRequest where
  id : String
  name : String
  content : Json

/-- Item of a tool response's rich content: `Union[str, ContentMultiMedia]`. -/
inductive ToolResponseItem where
  | str (s : String)
  | media (m : ContentMultiMedia)

/-- Content of a tool response:
`Union[str, List[Union[str, ContentMultiMedia]]]`. -/
inductive ToolResponseContent where
  | str (s : String)
  | items (l : List ToolResponseItem)

/-- Model of the pydantic `ContentMultiMediaToolResponse` model. -/
structure ContentMultiMediaToolResponse where
  id : String
  name : String
  content : ToolResponseContent

/-- One element of a list-valued message content:
`Union[str, ContentMultiMedia, ContentMultiMediaToolRequest, ContentMultiMediaToolResponse]`. -/
inductive ContentPart where
  | text (s : String)
  | media (m : ContentMultiMedia)
  | toolreq (r : ContentMultiMediaToolRequest)
  | toolresp (r : ContentMultiMediaToolResponse)

/-- Model of `RichContent`: a bare string or a list of content parts. -/
inductive RichContent where
  | str (s : String)
  | parts (l : List ContentPart)

/-- Model of the pydantic `PomlMessage` model.  Note that pydantic validates
only the shape of the fields; it imposes no constraint relating the
speaker to the kinds of tool-call parts in the content. -/
structure PomlMessage where
  speaker : Speaker
  content : RichContent

/-- Model of the pydantic `PomlFrame` model. -/
structure PomlFrame where
  messages : List PomlMessage
  output_schema : Option Json := none
  tools : Option (List Json) := none
  runtime : Option (List (String × Json)) := none

/-- Model of `_rich_content_to_text`: strings pass through; a multimedia part
renders as `[type: alt]` when `alt` is truthy (present and non-empty) and
as `[type]` otherwise; parts are joined by a blank line. -/
def rich_content_to_text : ToolResponseContent → String
  | .str s => s
  | .items l => String.intercalate "\n\n" (l.map fun p =>
      match p with
      | ToolResponseItem.str s => s
      | ToolResponseItem.media m =>
        match m.alt with
        | some a => if a ≠ "" then "[" ++ m.type ++ ": " ++ a ++ "]" else "[" ++ m.type ++ "]"
        | none => "[" ++ m.type ++ "]")

/-- OpenAI chat content part accumulated in `text_image_contents` (the Python
code stores the corresponding dicts; the rendering to dicts is
`OpenAIContentPart.toJson`). -/
inductive OpenAIContentPart where
  | text (s : String)
  | imageUrl (url : String)
deriving DecidableEq

/-- Dict shape of an accumulated OpenAI content part. -/
def OpenAIContentPart.toJson : OpenAIContentPart → Json
  | .text s => Json.obj [("type", Json.str "text"), ("text", Json.str s)]
  | .imageUrl u => Json.obj [("type", Json.str "image_url"), ("image_url", Json.obj [("url", Json.str u)])]

/-- Entry of the OpenAI `tool_calls` array built from a tool request: the
arguments are JSON-stringified unless they are already a string. -/
def toolCallToJson (r : ContentMultiMediaToolRequest) : Json :=
  Json.obj [("id", Json.str r.id), ("type", Json.str "function"),
    ("function", Json.obj [("name", Json.str r.name),
      ("arguments", Json.str (match r.content with
        | Json.str s => s
        | c => Json.dumps c))])]

/-- Standalone OpenAI message produced from one `ContentMultiMediaToolResponse`
part of a tool-speaker message. -/
def toolResponseToOpenai (r : ContentMultiMediaToolResponse) : Json :=
  Json.obj [("role", Json.str "tool"),
    ("content", Json.str (match r.content with
      | ToolResponseContent.str s => s
      | c => rich_content_to_text c)),
    ("tool_call_id", Json.str r.id)]

/-- Loop body of `_poml_response_to_openai_chat` over the parts of a
non-tool message: accumulates `text_image_contents` and `tool_calls` in
order, raising on a tool request outside an assistant message and on a
tool response encountered outside a tool message. -/
def openaiProcessParts (speaker : Speaker) : List ContentPart → Except String (List OpenAIContentPart × List Json)
  | [] => Except.ok ([], [])
  | ContentPart.text s :: rest => do
      let (tis, tcs) ← openaiProcessParts speaker rest
      Except.ok (OpenAIContentPart.text s :: tis, tcs)
  | ContentPart.media m :: rest => do
      let (tis, tcs) ← openaiProcessParts speaker rest
      Except.ok (OpenAIContentPart.imageUrl ("data:" ++ m.type ++ ";base64," ++ m.base64) :: tis, tcs)
  | ContentPart.toolreq r :: rest =>
      if speaker_to_role speaker ≠ "assistant" then
        Except.error ("Tool request found in non-assistant message with speaker: " ++ speakerStr speaker)
      else do
        let (tis, tcs) ← openaiProcessParts speaker rest
        Except.ok (tis, toolCallToJson r :: tcs)
  | ContentPart.toolresp _ :: _ =>
      Except.error ("Tool response found in " ++ speakerStr speaker ++ " message; should be in tool message")

/-- Conversion of a single `PomlMessage` inside the loop of
`_poml_response_to_openai_chat`, returning the output messages this
message contributes, in order. -/
def openaiConvertMessage (msg : PomlMessage) : Except String (List Json) :=
  match msg.speaker, msg.content with
  | Speaker.tool, RichContent.parts l =>
      Except.ok (l.filterMap fun p =>
        match p with
        | ContentPart.toolresp r => some (toolResponseToOpenai r)
        | _ => none)
  | Speaker.tool, RichContent.str s =>
      Except.ok [Json.obj [("role", Json.str "tool"), ("content", Json.str s)]]
  | sp, RichContent.str s =>
      Except.ok [Json.obj [("role", Json.str (speaker_to_role sp)), ("content", Json.str s)]]
  | sp, RichContent.parts l => do
      let (tis, tcs) ← openaiProcessParts sp l
      let fields := [("role", Json.str (speaker_to_role sp))]
      let fields :=
        match tis with
        | [] => fields
        | [OpenAIContentPart.text s] => fields ++ [("content", Json.str s)]
        | _ => fields ++ [("content", Json.arr (tis.map OpenAIContentPart.toJson))]
      let fields :=
        match tcs with
        | [] => fields
        | _ => fields ++ [("tool_calls", Json.arr tcs)]
      match tis, tcs with
      | [], [] => Except.ok []
      | _, _ => Except.ok [Json.obj fields]

/-- Model of `_poml_response_to_openai_chat`: per-message outputs are
concatenated in message order; the first error raised aborts the whole
conversion. -/
def poml_response_to_openai_chat : List PomlMessage → Except String (List Json)
  | [] => Except.ok []
  | msg :: rest => do
      let head ← openaiConvertMessage msg
      let tail ← poml_response_to_openai_chat rest
      Except.ok (head ++ tail)

/-- LangChain content part accumulated in `content_parts`. -/
inductive LangchainContentPart where
  | text (s : String)
  | image (data : String) (mime : String)
deriving DecidableEq

/-- Dict shape of an accumulated LangChain content part. -/
def LangchainContentPart.toJson : LangchainContentPart → Json
  | .text s => Json.obj [("type", Json.str "text"), ("text", Json.str s)]
  | .image d m => Json.obj [("type", Json.str "image"), ("source_type", Json.str "base64"), ("data", Json.str d), ("mime_type", Json.str m)]

/-- Standalone LangChain `tool` entry emitted for a
`ContentMultiMediaToolResponse` part found anywhere in a message's parts. -/
def langchainToolRespMsg (r : ContentMultiMediaToolResponse) : Json :=
  Json.obj [("type", Json.str "tool"),
    ("data", Json.obj [
      ("content", Json.str (match r.content with
        | ToolResponseContent.str s => s
        | c => rich_content_to_text c)),
      ("tool_call_id", Json.str r.id),
      ("name", Json.str r.name)])]

/-- Loop body of `_poml_response_to_langchain` over a message's parts:
collects the standalone tool-response entries (appended to the global
output before the containing message), the content parts, and the
tool calls, each in order of appearance. -/
def langchainProcessParts : List ContentPart → List Json × List LangchainContentPart × List Json
  | [] => ([], [], [])
  | p :: rest =>
    let (resps, cps, tcs) := langchainProcessParts rest
    match p with
    | ContentPart.text s => (resps, LangchainContentPart.text s :: cps, tcs)
    | ContentPart.media m => (resps, LangchainContentPart.image m.base64 m.type :: cps, tcs)
    | ContentPart.toolreq r => (resps, cps, Json.obj [("id", Json.str r.id), ("name", Json.str r.name), ("args", r.content)] :: tcs)
    | ContentPart.toolresp r => (langchainToolRespMsg r :: resps, cps, tcs)

/-- Conversion of a single `PomlMessage` inside the loop of
`_poml_response_to_langchain`: first the standalone tool-response entries,
then (if its data dict is non-empty) the message's own entry. -/
def langchainConvertMessage (msg : PomlMessage) : List Json :=
  match msg.content with
  | RichContent.str s => [Json.obj [("type", Json.str (speakerStr msg.speaker)), ("data", Json.obj [("content", Json.str s)])]]
  | RichContent.parts l =>
    let (resps, cps, tcs) := langchainProcessParts l
    let dataFields : List (String × Json) :=
      match cps with
      | [] => []
      | [LangchainContentPart.text s] => [("content", Json.str s)]
      | _ => [("content", Json.arr (cps.map LangchainContentPart.toJson))]
    let dataFields :=
      match tcs with
      | [] => dataFields
      | _ => dataFields ++ [("tool_calls", Json.arr tcs)]
    match dataFields with
    | [] => resps
    | _ => resps ++ [Json.obj [("type", Json.str (speakerStr msg.speaker)), ("data", Json.obj dataFields)]]

/-- Model of `_poml_response_to_langchain`.  Note that it raises no error on
any well-typed message list: misplaced tool requests and responses are
processed, not rejected. -/
def poml_response_to_langchain : List PomlMessage → List Json
  | [] => []
  | msg :: rest => langchainConvertMessage msg ++ poml_response_to_langchain rest

/-- Wire (CLI output) dict for a `ContentMultiMedia`, with `alt` emitted only
when set; this is the shape `message_dict` and `dict` formats carry. -/
def mediaToDict (m : ContentMultiMedia) : Json :=
  Json.obj ([("type", Json.str m.type), ("base64", Json.str m.base64)]
    ++ (match m.alt with | some a => [("alt", Json.str a)] | none => []))

/-- Wire dict for a tool response's rich content. -/
def toolResponseContentToDict : ToolResponseContent → Json
  | ToolResponseContent.str s => Json.str s
  | ToolResponseContent.items l => Json.arr (l.map fun p =>
      match p with
      | ToolResponseItem.str s => Json.str s
      | ToolResponseItem.media m => mediaToDict m)

/-- Wire dict for one content part. -/
def contentPartToDict : ContentPart → Json
  | ContentPart.text s => Json.str s
  | ContentPart.media m => mediaToDict m
  | ContentPart.toolreq r => Json.obj [("type", Json.str "application/vnd.poml.toolrequest"), ("id", Json.str r.id), ("name", Json.str r.name), ("content", r.content)]
  | ContentPart.toolresp r => Json.obj [("type", Json.str "application/vnd.poml.toolresponse"), ("id", Json.str r.id), ("name", Json.str r.name), ("content", toolResponseContentToDict r.content)]

/-- Wire representation of a message's content. -/
def richContentToDict : RichContent → Json
  | RichContent.str s => Json.str s
  | RichContent.parts l => Json.arr (l.map contentPartToDict)

/-- Wire dict of one message, with `speaker` and `content` keys. -/
def messageToDict (m : PomlMessage) : Json :=
  Json.obj [("speaker", Json.str (speakerStr m.speaker)), ("content", richContentToDict m.content)]

/-- Output of the `message_dict` format: the bare messages array. -/
def message_dict_format (messages : List PomlMessage) : List Json :=
  messages.map messageToDict

/-- Output of the `dict` format: the full CLI result structure, with
`schema`, `tools` and `runtime` present only when the frame carries them. -/
def dict_format (frame : PomlFrame) : Json :=
  Json.obj ([("messages", Json.arr (message_dict_format frame.messages))]
    ++ (match frame.output_schema with | some s => [("schema", s)] | none => [])
    ++ (match frame.tools with | some t => [("tools", Json.arr t)] | none => [])
    ++ (match frame.runtime with | some r => [("runtime", Json.obj r)] | none => []))

/-- Required string field of a pydantic model being validated. -/
def getStrField (fields : List (String × Json)) (key : String) : Except String String :=
  match jsonLookup fields key with
  | some (Json.str s) => Except.ok s
  | _ => Except.error ("validation error: field " ++ key ++ " must be a string")

/-- Optional `alt` field of `ContentMultiMedia` (defaults to `None`). -/
def parseAlt (fields : List (String × Json)) : Except String (Option String) :=
  match jsonLookup fields "alt" with
  | none => Except.ok none
  | some Json.null => Except.ok none
  | some (Json.str s) => Except.ok (some s)
  | some _ => Except.error "validation error: alt must be a string or null"

/-- Validation of a `ContentMultiMedia` from a wire dict's fields. -/
def parseMultiMedia (fields : List (String × Json)) : Except String ContentMultiMedia := do
  let t ← getStrField fields "type"
  let b ← getStrField fields "base64"
  let a ← parseAlt fields
  Except.ok ⟨t, b, a⟩

/-- Validation of one item of a tool response's rich content. -/
def parseToolResponseItem : Json → Except String ToolResponseItem
  | Json.str s => Except.ok (ToolResponseItem.str s)
  | Json.obj fields => do
      let m ← parseMultiMedia fields
      Except.ok (ToolResponseItem.media m)
  | _ => Except.error "validation error: tool response content item"

/-- Validation of a tool response's `content` field. -/
def parseToolResponseContent : Json → Except String ToolResponseContent
  | Json.str s => Except.ok (ToolResponseContent.str s)
  | Json.arr items => do
      let l ← items.mapM parseToolResponseItem
      Except.ok (ToolResponseContent.items l)
  | _ => Except.error "validation error: tool response content"

/-- Validation of one element of a list-valued message content, modelling the
pydantic union resolution: a bare string is text; an object is discriminated
by its `type` field — the tool-request marker type, the tool-response marker
type, or otherwise a multimedia part (which requires `base64`); anything
else is rejected. -/
def parseContentPart : Json → Except String ContentPart
  | Json.str s => Except.ok (ContentPart.text s)
  | Json.obj fields =>
    (match jsonLookup fields "type" with
    | some (Json.str "application/vnd.poml.toolrequest") => do
        let i ← getStrField fields "id"
        let n ← getStrField fields "name"
        (match jsonLookup fields "content" with
        | some c => Except.ok (ContentPart.toolreq ⟨i, n, c⟩)
        | none => Except.error "validation error: content field required")
    | some (Json.str "application/vnd.poml.toolresponse") => do
        let i ← getStrField fields "id"
        let n ← getStrField fields "name"
        (match jsonLookup fields "content" with
        | some c => do
            let rc ← parseToolResponseContent c
            Except.ok (ContentPart.toolresp ⟨i, n, rc⟩)
        | none => Except.error "validation error: content field required")
    | some (Json.str _) => do
        let m ← parseMultiMedia fields
        Except.ok (ContentPart.media m)
    | _ => Except.error "validation error: unrecognized content part")
  | _ => Except.error "validation error: unrecognized content part"

/-- Validation of the `speaker` field against the `Speaker` Literal type. -/
def parseSpeaker : Json → Except String Speaker
  | Json.str "human" => Except.ok Speaker.human
  | Json.str "ai" => Except.ok Speaker.ai
  | Json.str "system" => Except.ok Speaker.system
  | Json.str "tool" => Except.ok Speaker.tool
  | _ => Except.error "validation error: speaker"

/-- Validation of a message's `content` field. -/
def parseRichContent : Json → Except String RichContent
  | Json.str s => Except.ok (RichContent.str s)
  | Json.arr items => do
      let l ← items.mapM parseContentPart
      Except.ok (RichContent.parts l)
  | _ => Except.error "validation error: content"

/-- Model of `PomlMessage(**item)`: pydantic validation of one message from
its wire dict.  It checks field shapes only — no rule about where tool
requests or tool responses may appear. -/
def parsePomlMessage : Json → Except String PomlMessage
  | Json.obj fields => do
      let sp ← (match jsonLookup fields "speaker" with
        | some j => parseSpeaker j
        | none => Except.error "validation error: speaker field required")
      let c ← (match jsonLookup fields "content" with
        | some j => parseRichContent j
        | none => Except.error "validation error: content field required")
      Except.ok ⟨sp, c⟩
  | _ => Except.error "validation error: message must be an object"

/-- Construction of the message model from the wire messages array — the
`[PomlMessage(**item) for item in messages_data]` step. -/
def parsePomlMessages (items : List Json) : Except String (List PomlMessage) :=
  items.mapM parsePomlMessage

/-- ASCII uppercase test, the `[A-Z]` character class. -/
def isUpperAscii (c : Char) : Bool := 65 ≤ c.toNat && c.toNat ≤ 90

/-- ASCII lowercase test, the `[a-z]` character class. -/
def isLowerAscii (c : Char) : Bool := 97 ≤ c.toNat && c.toNat ≤ 122

/-- ASCII digit test, the `0-9` part of the `[a-z0-9]` character class. -/
def isDigitAscii (c : Char) : Bool := 48 ≤ c.toNat && c.toNat ≤ 57

/-- ASCII lowering of one character, as `str.lower` acts on ASCII letters. -/
def asciiLowerChar (c : Char) : Char :=
  if h : 65 ≤ c.toNat ∧ c.toNat ≤ 90 then
    Char.ofNatAux (c.toNat + 32) (Or.inl (by omega))
  else c

/-- Test that a lowercase run starts here (the `[a-z]+` part of the first
regex can match). -/
def lowerRunNonempty : List Char → Bool
  | c :: _ => isLowerAscii c
  | [] => false

/-- Scanner of `re.sub('(.)([A-Z][a-z]+)', r'\1_\2', name)` with explicit
fuel (any fuel at least the list length gives the substitution): leftmost,
non-overlapping matches; the dot does not match a newline; `[a-z]+` is
greedy; scanning resumes after each match. -/
def camelSub1Fuel : Nat → List Char → List Char
  | 0, l => l
  | _ + 1, [] => []
  | _ + 1, [c] => [c]
  | fuel + 1, c :: d :: rest =>
    if c != '\n' && isUpperAscii d && lowerRunNonempty rest then
      c :: '_' :: d :: (rest.takeWhile isLowerAscii ++ camelSub1Fuel fuel (rest.dropWhile isLowerAscii))
    else
      c :: camelSub1Fuel fuel (d :: rest)

/-- Model of `re.sub('(.)([A-Z][a-z]+)', r'\1_\2', name)`. -/
def camelSub1 (l : List Char) : List Char := camelSub1Fuel l.length l

/-- Model of `re.sub('([a-z0-9])([A-Z])', r'\1_\2', s1)`: leftmost,
non-overlapping matches; scanning resumes after each matched pair. -/
def camelSub2 : List Char → List Char
  | [] => []
  | [c] => [c]
  | c :: d :: rest =>
    if (isLowerAscii c || isDigitAscii c) && isUpperAscii d then
      c :: '_' :: d :: camelSub2 rest
    else
      c :: camelSub2 (d :: rest)

/-- Model of `_camel_case_to_snake_case`: the two substitutions followed by
`str.lower()`. -/
def camel_case_to_snake_case (name : String) : String :=
  String.mk ((camelSub2 (camelSub1 name.data)).map asciiLowerChar)

/-- C1: for the Envelope with a human message "Search for Python", an ai
message holding one ToolCallRequest (id `call_123`, name `search`,
arguments `\x7bquery: "Python"\x7d`), and a tool message holding one
ToolCallResponse (id `call_123`, content "Python is a language."), the
OpenAIChat converter produces exactly the three claimed messages in order,
with the request arguments JSON-stringified (already-string arguments
would pass through as-is, per `toolCallToJson`). -/
theorem claim_C1_openai_tool_scenario :
    poml_response_to_openai_chat [
      ⟨Speaker.human, RichContent.str "Search for Python"⟩,
      ⟨Speaker.ai, RichContent.parts [ContentPart.toolreq ⟨"call_123", "search", Json.obj [("query", Json.str "Python")]⟩]⟩,
      ⟨Speaker.tool, RichContent.parts [ContentPart.toolresp ⟨"call_123", "search", ToolResponseContent.str "Python is a language."⟩]⟩] =
    Except.ok [
      Json.obj [("role", Json.str "user"), ("content", Json.str "Search for Python")],
      Json.obj [("role", Json.str "assistant"), ("tool_calls", Json.arr [Json.obj [("id", Json.str "call_123"), ("type", Json.str "function"), ("function", Json.obj [("name", Json.str "search"), ("arguments", Json.str "\x7b\"query\": \"Python\"\x7d")])]])],
      Json.obj [("role", Json.str "tool"), ("content", Json.str "Python is a language."), ("tool_call_id", Json.str "call_123")]] := by
  rfl

/-- C8: a human message with content `["Image ", Multimedia png/abc/tiny]`
converts to the claimed OpenAI content-part array and to the claimed
LangChain content-part array. -/
theorem claim_C8_multimedia_both_formats :
    poml_response_to_openai_chat [⟨Speaker.human, RichContent.parts [ContentPart.text "Image ", ContentPart.media ⟨"image/png", "abc", some "tiny"⟩]⟩] =
      Except.ok [Json.obj [("role", Json.str "user"),
        ("content", Json.arr [
          Json.obj [("type", Json.str "text"), ("text", Json.str "Image ")],
          Json.obj [("type", Json.str "image_url"), ("image_url", Json.obj [("url", Json.str "data:image/png;base64,abc")])]])]] ∧
    poml_response_to_langchain [⟨Speaker.human, RichContent.parts [ContentPart.text "Image ", ContentPart.media ⟨"image/png", "abc", some "tiny"⟩]⟩] =
      [Json.obj [("type", Json.str "human"),
        ("data", Json.obj [("content", Json.arr [
          Json.obj [("type", Json.str "text"), ("text", Json.str "Image ")],
          Json.obj [("type", Json.str "image"), ("source_type", Json.str "base64"), ("data", Json.str "abc"), ("mime_type", Json.str "image/png")]])])]] :=
  ⟨rfl, rfl⟩

/-- C10: a tool-speaker message whose content is a bare string is emitted as
`\x7brole: "tool", content: s\x7d`, and that emitted object carries no
`tool_call_id` key. -/
theorem claim_C10_bare_string_tool_message (s : String) :
    poml_response_to_openai_chat [⟨Speaker.tool, RichContent.str s⟩] =
      Except.ok [Json.obj [("role", Json.str "tool"), ("content", Json.str s)]] ∧
    (Json.obj [("role", Json.str "tool"), ("content", Json.str s)]).getKey "tool_call_id" = none :=
  ⟨rfl, rfl⟩

/-- C2 counterexample: for a human-speaker message holding a ToolCallRequest,
construction of the message model succeeds (pydantic shape validation
imposes no placement rule), the LangChain converter returns a normal
message carrying the request under `tool_calls` with no error, and only
the OpenAIChat converter fails — during conversion, not construction.
The claim that construction fails with MisplacedToolCall before any
conversion, and that every converter observes the same error, is false. -/
theorem claim_C2_counterexample :
    parsePomlMessage (Json.obj [("speaker", Json.str "human"), ("content", Json.arr [Json.obj [("type", Json.str "application/vnd.poml.toolrequest"), ("id", Json.str "call_123"), ("name", Json.str "search"), ("content", Json.obj [("query", Json.str "Python")])]])]) =
      Except.ok ⟨Speaker.human, RichContent.parts [ContentPart.toolreq ⟨"call_123", "search", Json.obj [("query", Json.str "Python")]⟩]⟩ ∧
    poml_response_to_langchain [⟨Speaker.human, RichContent.parts [ContentPart.toolreq ⟨"call_123", "search", Json.obj [("query", Json.str "Python")]⟩]⟩] =
      [Json.obj [("type", Json.str "human"), ("data", Json.obj [("tool_calls", Json.arr [Json.obj [("id", Json.str "call_123"), ("name", Json.str "search"), ("args", Json.obj [("query", Json.str "Python")])]])])]] ∧
    poml_response_to_openai_chat [⟨Speaker.human, RichContent.parts [ContentPart.toolreq ⟨"call_123", "search", Json.obj [("query", Json.str "Python")]⟩]⟩] =
      Except.error "Tool request found in non-assistant message with speaker: human" :=
  ⟨rfl, rfl, rfl⟩

/-- C2 amended: the message model performs no tool-call placement validation
at construction.  For a ToolCallRequest in a human- or system-speaker
message, construction succeeds; the OpenAIChat converter alone raises an
error (during conversion), while the LangChain converter emits the request
under `tool_calls` without error. -/
theorem claim_C2_amended (sp : Speaker) (hsp : sp = Speaker.human ∨ sp = Speaker.system)
    (i n : String) (args : Json) :
    parsePomlMessage (Json.obj [("speaker", Json.str (speakerStr sp)), ("content", Json.arr [Json.obj [("type", Json.str "application/vnd.poml.toolrequest"), ("id", Json.str i), ("name", Json.str n), ("content", args)]])]) =
      Except.ok ⟨sp, RichContent.parts [ContentPart.toolreq ⟨i, n, args⟩]⟩ ∧
    poml_response_to_openai_chat [⟨sp, RichContent.parts [ContentPart.toolreq ⟨i, n, args⟩]⟩] =
      Except.error ("Tool request found in non-assistant message with speaker: " ++ speakerStr sp) ∧
    poml_response_to_langchain [⟨sp, RichContent.parts [ContentPart.toolreq ⟨i, n, args⟩]⟩] =
      [Json.obj [("type", Json.str (speakerStr sp)), ("data", Json.obj [("tool_calls", Json.arr [Json.obj [("id", Json.str i), ("name", Json.str n), ("args", args)]])])]] := by
  rcases hsp with rfl | rfl <;> exact ⟨rfl, rfl, rfl⟩

/-- C2 amended witness: the amended statement evaluated at a concrete
system-speaker message. -/
theorem claim_C2_amended_witness :
    poml_response_to_openai_chat [⟨Speaker.system, RichContent.parts [ContentPart.toolreq ⟨"i1", "f", Json.null⟩]⟩] =
      Except.error "Tool request found in non-assistant message with speaker: system" :=
  (claim_C2_amended Speaker.system (Or.inr rfl) "i1" "f" Json.null).2.1

/-- C3 counterexample: a tool-speaker message whose list content holds a
stray text part besides a ToolCallResponse is constructed without any
MalformedMessage error, and OpenAIChat conversion silently drops the
stray part, emitting only the tool-response message. -/
theorem claim_C3_counterexample :
    parsePomlMessage (Json.obj [("speaker", Json.str "tool"), ("content", Json.arr [Json.str "stray", Json.obj [("type", Json.str "application/vnd.poml.toolresponse"), ("id", Json.str "call_1"), ("name", Json.str "f"), ("content", Json.str "done")]])]) =
      Except.ok ⟨Speaker.tool, RichContent.parts [ContentPart.text "stray", ContentPart.toolresp ⟨"call_1", "f", ToolResponseContent.str "done"⟩]⟩ ∧
    poml_response_to_openai_chat [⟨Speaker.tool, RichContent.parts [ContentPart.text "stray", ContentPart.toolresp ⟨"call_1", "f", ToolResponseContent.str "done"⟩]⟩] =
      Except.ok [Json.obj [("role", Json.str "tool"), ("content", Json.str "done"), ("tool_call_id", Json.str "call_1")]] :=
  ⟨rfl, rfl⟩

/-- C3 amended: construction never fails on a tool-speaker message's content;
in OpenAIChat conversion of a tool message with list content, any part
that is not a ToolCallResponse is silently ignored — removing it leaves
the output unchanged and raises no error. -/
theorem claim_C3_amended (l1 l2 : List ContentPart) (p : ContentPart)
    (hp : ∀ r, p ≠ ContentPart.toolresp r) :
    poml_response_to_openai_chat [⟨Speaker.tool, RichContent.parts (l1 ++ p :: l2)⟩] =
      poml_response_to_openai_chat [⟨Speaker.tool, RichContent.parts (l1 ++ l2)⟩] := by
  simp only [poml_response_to_openai_chat, openaiConvertMessage, List.filterMap_append, List.filterMap_cons]

/-- C3 amended witness: a stray text part in a tool message is dropped,
leaving the empty output of the part-free tool message. -/
theorem claim_C3_amended_witness :
    poml_response_to_openai_chat [⟨Speaker.tool, RichContent.parts [ContentPart.text "x"]⟩] = Except.ok [] :=
  (claim_C3_amended [] [] (ContentPart.text "x") (fun _ h => ContentPart.noConfusion h)).trans rfl

/-- Helper: the OpenAIChat converter on a single message yields exactly that
message's contribution. -/
theorem openai_chat_singleton (m : PomlMessage) :
    poml_response_to_openai_chat [m] = openaiConvertMessage m := by
  simp only [poml_response_to_openai_chat]
  cases openaiConvertMessage m with
  | error e => rfl
  | ok x =>
      show Except.ok (x ++ []) = Except.ok x
      rw [List.append_nil]

/-- C4 counterexample: for a tool message whose ToolCallResponse content
holds a Multimedia part with `alt` present but empty, the rendered text is
`[image/png]`, not the `[image/png: ]` the claim's "when alt is present"
rule dictates — the code tests truthiness of `alt`, not presence. -/
theorem claim_C4_counterexample :
    poml_response_to_openai_chat [⟨Speaker.tool, RichContent.parts [ContentPart.toolresp ⟨"id1", "fn", ToolResponseContent.items [ToolResponseItem.media ⟨"image/png", "zz", some ""⟩]⟩]⟩] =
      Except.ok [Json.obj [("role", Json.str "tool"), ("content", Json.str "[image/png]"), ("tool_call_id", Json.str "id1")]] ∧
    ("[image/png]" : String) ≠ "[image/png: ]" :=
  ⟨rfl, by decide⟩

/-- C4 amended: in OpenAIChat conversion, for every tool-speaker message with
list content, each ToolCallResponse part becomes one standalone message
`\x7brole: "tool", content: rendered, tool_call_id: id\x7d`, where strings
pass through, a Multimedia part renders as `[mime: alt]` when `alt` is
present and non-empty and as `[mime]` otherwise, and parts are joined by a
blank line. -/
theorem claim_C4_amended (l : List ContentPart) :
    poml_response_to_openai_chat [⟨Speaker.tool, RichContent.parts l⟩] =
      Except.ok (l.filterMap fun p =>
        match p with
        | ContentPart.toolresp r => some (Json.obj [("role", Json.str "tool"),
            ("content", Json.str (match r.content with
              | ToolResponseContent.str s => s
              | ToolResponseContent.items items => String.intercalate "\n\n" (items.map fun it =>
                  match it with
                  | ToolResponseItem.str s => s
                  | ToolResponseItem.media m =>
                    match m.alt with
                    | some a => if a ≠ "" then "[" ++ m.type ++ ": " ++ a ++ "]" else "[" ++ m.type ++ "]"
                    | none => "[" ++ m.type ++ "]"))),
            ("tool_call_id", Json.str r.id)])
        | _ => none) := by
  have hfun : ∀ p ∈ l,
      (match p with
        | ContentPart.toolresp r => some (toolResponseToOpenai r)
        | _ => none)
      = (match p with
        | ContentPart.toolresp r => some (Json.obj [("role", Json.str "tool"),
            ("content", Json.str (match r.content with
              | ToolResponseContent.str s => s
              | ToolResponseContent.items items => String.intercalate "\n\n" (items.map fun it =>
                  match it with
                  | ToolResponseItem.str s => s
                  | ToolResponseItem.media m =>
                    match m.alt with
                    | some a => if a ≠ "" then "[" ++ m.type ++ ": " ++ a ++ "]" else "[" ++ m.type ++ "]"
                    | none => "[" ++ m.type ++ "]"))),
            ("tool_call_id", Json.str r.id)])
        | _ => none) := by
    intro p _
    cases p with
    | toolresp r =>
      obtain ⟨i, n, c⟩ := r
      cases c with
      | str s => rfl
      | items items => rfl
    | text s => rfl
    | media m => rfl
    | toolreq r => rfl
  rw [openai_chat_singleton]
  exact congrArg Except.ok (List.filterMap_congr hfun)

/-- Helper: the code point of a character built by `Char.ofNatAux`. -/
theorem char_ofNatAux_toNat (n : Nat) (h : n.isValidChar) : (Char.ofNatAux n h).toNat = n := rfl

/-- Helper: lowering a character never yields an ASCII uppercase letter. -/
theorem asciiLowerChar_not_upper (c : Char) : isUpperAscii (asciiLowerChar c) = false := by
  unfold asciiLowerChar
  split
  · rename_i h
    simp only [isUpperAscii, char_ofNatAux_toNat]
    have h2 : ¬ (c.toNat + 32 ≤ 90) := by omega
    simp [h2]
  · rename_i h
    simp only [isUpperAscii]
    by_cases h1 : 65 ≤ c.toNat
    · have h2 : ¬ (c.toNat ≤ 90) := fun h2 => h ⟨h1, h2⟩
      simp [h2]
    · simp [h1]

/-- Helper: lowering fixes characters that are not ASCII uppercase. -/
theorem asciiLowerChar_id (c : Char) (h : isUpperAscii c = false) : asciiLowerChar c = c := by
  have hc : ¬ (65 ≤ c.toNat ∧ c.toNat ≤ 90) := by
    intro hc
    simp [isUpperAscii, hc.1, hc.2] at h
  unfold asciiLowerChar
  rw [dif_neg hc]

/-- Helper: the first substitution is the identity on uppercase-free input. -/
theorem camelSub1Fuel_no_upper : (fuel : Nat) → (l : List Char) →
    (∀ c ∈ l, isUpperAscii c = false) → camelSub1Fuel fuel l = l
  | 0, _, _ => rfl
  | _ + 1, [], _ => rfl
  | _ + 1, [c], _ => rfl
  | fuel + 1, c :: d :: rest, h => by
      have hd : isUpperAscii d = false := h d (by simp)
      simp [camelSub1Fuel, hd]
      exact camelSub1Fuel_no_upper fuel (d :: rest) fun x hx => h x (List.mem_cons_of_mem _ hx)

/-- Helper: the second substitution is the identity on uppercase-free input. -/
theorem camelSub2_no_upper : (l : List Char) →
    (∀ c ∈ l, isUpperAscii c = false) → camelSub2 l = l
  | [], _ => rfl
  | [c], _ => rfl
  | c :: d :: rest, h => by
      have hd : isUpperAscii d = false := h d (by simp)
      simp [camelSub2, hd]
      exact camelSub2_no_upper (d :: rest) fun x hx => h x (List.mem_cons_of_mem _ hx)

/-- Helper: lowering is the identity on uppercase-free input. -/
theorem map_asciiLower_id (l : List Char) (h : ∀ c ∈ l, isUpperAscii c = false) :
    l.map asciiLowerChar = l := by
  induction l with
  | nil => rfl
  | cons a l ih =>
    simp only [List.map_cons]
    rw [asciiLowerChar_id a (h a (by simp)), ih (fun x hx => h x (List.mem_cons_of_mem _ hx))]

/-- Helper: the normalizer is the identity on uppercase-free strings. -/
theorem camel_no_upper_fixed (x : String) (h : ∀ c ∈ x.data, isUpperAscii c = false) :
    camel_case_to_snake_case x = x := by
  unfold camel_case_to_snake_case camelSub1
  rw [camelSub1Fuel_no_upper _ _ h, camelSub2_no_upper _ h, map_asciiLower_id _ h]

/-- Helper: the normalizer is idempotent on every string. -/
theorem camel_idem (x : String) :
    camel_case_to_snake_case (camel_case_to_snake_case x) = camel_case_to_snake_case x := by
  have h : ∀ c ∈ (camel_case_to_snake_case x).data, isUpperAscii c = false := by
    intro c hc
    rcases List.mem_map.mp hc with ⟨a, _, rfl⟩
    exact asciiLowerChar_not_upper a
  exact camel_no_upper_fixed _ h

/-- C5: the naming normalizer is a pure total function with
`maxTokens to max_tokens`, `topP to top_p`,
`frequencyPenalty to frequency_penalty`; it is idempotent on every string;
and every key containing an underscore and no ASCII uppercase letters
passes through unchanged. -/
theorem claim_C5_normalizer :
    camel_case_to_snake_case "maxTokens" = "max_tokens" ∧
    camel_case_to_snake_case "topP" = "top_p" ∧
    camel_case_to_snake_case "frequencyPenalty" = "frequency_penalty" ∧
    (∀ x : String, camel_case_to_snake_case (camel_case_to_snake_case x) = camel_case_to_snake_case x) ∧
    (∀ x : String, '_' ∈ x.data → (∀ c ∈ x.data, isUpperAscii c = false) →
      camel_case_to_snake_case x = x) :=
  ⟨rfl, rfl, rfl, camel_idem, fun x _ h => camel_no_upper_fixed x h⟩

/-- C5 witness: idempotence applied at "maxTokens" and the passthrough rule
applied at "max_tokens". -/
theorem claim_C5_normalizer_witness :
    camel_case_to_snake_case (camel_case_to_snake_case "maxTokens") = camel_case_to_snake_case "maxTokens" ∧
    camel_case_to_snake_case "max_tokens" = "max_tokens" :=
  ⟨claim_C5_normalizer.2.2.2.1 "maxTokens",
   claim_C5_normalizer.2.2.2.2 "max_tokens" (by decide) (by decide)⟩

/-- C6: in OpenAIChat conversion of a non-tool message with list content,
the assembled text/multimedia parts become a bare string exactly when they
are a single text part and nothing else; otherwise they become the
content-part array of `\x7btype: "text"\x7d` / `\x7btype: "image_url"\x7d`
objects, with the collected tool calls appended under `tool_calls`. -/
theorem claim_C6_content_assembly (sp : Speaker) (l : List ContentPart)
    (tis : List OpenAIContentPart) (tcs : List Json)
    (hsp : sp ≠ Speaker.tool)
    (hp : openaiProcessParts sp l = Except.ok (tis, tcs))
    (hne : tis ≠ []) :
    poml_response_to_openai_chat [⟨sp, RichContent.parts l⟩] =
      Except.ok [Json.obj (("role", Json.str (speaker_to_role sp)) ::
        ("content", match tis with
          | [OpenAIContentPart.text s] => Json.str s
          | _ => Json.arr (tis.map OpenAIContentPart.toJson)) ::
        (match tcs with
          | [] => ([] : List (String × Json))
          | _ => [("tool_calls", Json.arr tcs)]))] ∧
    (∀ s, (match tis with
          | [OpenAIContentPart.text s'] => Json.str s'
          | _ => Json.arr (tis.map OpenAIContentPart.toJson)) = Json.str s ↔ tis = [OpenAIContentPart.text s]) := by
  constructor
  · rw [openai_chat_singleton]
    cases sp with
    | tool => exact absurd rfl hsp
    | human =>
        simp only [openaiConvertMessage, hp]
        rcases tis with _ | ⟨t1, rest⟩
        · exact absurd rfl hne
        · rcases rest with _ | ⟨t2, rest2⟩
          · cases t1 <;> cases tcs <;> rfl
          · cases t1 <;> cases tcs <;> rfl
    | ai =>
        simp only [openaiConvertMessage, hp]
        rcases tis with _ | ⟨t1, rest⟩
        · exact absurd rfl hne
        · rcases rest with _ | ⟨t2, rest2⟩
          · cases t1 <;> cases tcs <;> rfl
          · cases t1 <;> cases tcs <;> rfl
    | system =>
        simp only [openaiConvertMessage, hp]
        rcases tis with _ | ⟨t1, rest⟩
        · exact absurd rfl hne
        · rcases rest with _ | ⟨t2, rest2⟩
          · cases t1 <;> cases tcs <;> rfl
          · cases t1 <;> cases tcs <;> rfl
  · intro s
    constructor
    · intro hEq
      rcases tis with _ | ⟨t1, rest⟩
      · exact Json.noConfusion hEq
      · rcases rest with _ | ⟨t2, rest2⟩
        · cases t1 with
          | text s' =>
              injection hEq with h2
              rw [h2]
          | imageUrl u => exact Json.noConfusion hEq
        · cases t1 <;> exact Json.noConfusion hEq
    · rintro rfl
      rfl

/-- C6 witness: a text part plus an image part assemble into a two-element
content-part array, not a bare string. -/
theorem claim_C6_witness :
    poml_response_to_openai_chat [⟨Speaker.human, RichContent.parts [ContentPart.text "hi", ContentPart.media ⟨"image/png", "b64", none⟩]⟩] =
      Except.ok [Json.obj [("role", Json.str "user"),
        ("content", Json.arr [Json.obj [("type", Json.str "text"), ("text", Json.str "hi")],
          Json.obj [("type", Json.str "image_url"), ("image_url", Json.obj [("url", Json.str "data:image/png;base64,b64")])]])]] :=
  (claim_C6_content_assembly Speaker.human
    [ContentPart.text "hi", ContentPart.media ⟨"image/png", "b64", none⟩]
    [OpenAIContentPart.text "hi", OpenAIContentPart.imageUrl "data:image/png;base64,b64"] []
    (by decide) rfl (by decide)).1

/-- Helper: the OpenAIChat converter distributes over list append, with the
first error winning. -/
theorem openai_chat_append (xs ys : List PomlMessage) :
    poml_response_to_openai_chat (xs ++ ys) =
      (do
        let a ← poml_response_to_openai_chat xs
        let b ← poml_response_to_openai_chat ys
        Except.ok (a ++ b)) := by
  induction xs with
  | nil =>
      show poml_response_to_openai_chat ys =
        (do
          let b ← poml_response_to_openai_chat ys
          Except.ok ([] ++ b))
      cases h : poml_response_to_openai_chat ys with
      | error e => rfl
      | ok b =>
          show Except.ok b = Except.ok ([] ++ b)
          rw [List.nil_append]
  | cons m xs ih =>
      have step : poml_response_to_openai_chat ((m :: xs) ++ ys) =
          (do
            let head ← openaiConvertMessage m
            let tail ← poml_response_to_openai_chat (xs ++ ys)
            Except.ok (head ++ tail)) := rfl
      have step2 : poml_response_to_openai_chat (m :: xs) =
          (do
            let head ← openaiConvertMessage m
            let tail ← poml_response_to_openai_chat xs
            Except.ok (head ++ tail)) := rfl
      rw [step, step2, ih]
      cases hm : openaiConvertMessage m with
      | error e => rfl
      | ok h1 =>
        cases hxs : poml_response_to_openai_chat xs with
        | error e => rfl
        | ok a =>
          cases hys : poml_response_to_openai_chat ys with
          | error e => rfl
          | ok b =>
              show Except.ok (h1 ++ (a ++ b)) = Except.ok (h1 ++ a ++ b)
              rw [List.append_assoc]

/-- C7: a non-tool message whose list content yields no text/multimedia
parts and no tool calls contributes no output message at all, and the
remaining messages keep their relative order. -/
theorem claim_C7_empty_message_skipped (pre post : List PomlMessage) (sp : Speaker)
    (l : List ContentPart)
    (hsp : sp ≠ Speaker.tool)
    (hp : openaiProcessParts sp l = Except.ok ([], [])) :
    poml_response_to_openai_chat (pre ++ ⟨sp, RichContent.parts l⟩ :: post) =
      poml_response_to_openai_chat (pre ++ post) := by
  have hm : openaiConvertMessage ⟨sp, RichContent.parts l⟩ = Except.ok [] := by
    cases sp with
    | tool => exact absurd rfl hsp
    | human => simp only [openaiConvertMessage, hp]; try rfl
    | ai => simp only [openaiConvertMessage, hp]; try rfl
    | system => simp only [openaiConvertMessage, hp]; try rfl
  rw [openai_chat_append, openai_chat_append]
  have hcons : poml_response_to_openai_chat (⟨sp, RichContent.parts l⟩ :: post) =
      poml_response_to_openai_chat post := by
    simp only [poml_response_to_openai_chat, hm]
    cases h2 : poml_response_to_openai_chat post with
    | error e => rfl
    | ok b =>
        show Except.ok ([] ++ b) = Except.ok b
        rw [List.nil_append]
  rw [hcons]

/-- C7 witness: a system message with empty list content between two string
messages is skipped. -/
theorem claim_C7_witness :
    poml_response_to_openai_chat [⟨Speaker.human, RichContent.str "a"⟩, ⟨Speaker.system, RichContent.parts []⟩, ⟨Speaker.ai, RichContent.str "b"⟩] =
      poml_response_to_openai_chat [⟨Speaker.human, RichContent.str "a"⟩, ⟨Speaker.ai, RichContent.str "b"⟩] :=
  claim_C7_empty_message_skipped [⟨Speaker.human, RichContent.str "a"⟩] [⟨Speaker.ai, RichContent.str "b"⟩]
    Speaker.system [] (by decide) rfl

/-- C9: for an Envelope whose messages all have plain-string content, the
OpenAIChat and LangChain converters each produce one entry per message in
order, carrying the same content string (under `content` with the mapped
role, and under `data.content` with the speaker as `type`, respectively),
the MessageList output is the per-message `speaker`/`content` dict in the
same order, and the FullDict output's `messages` field is exactly that
MessageList output. -/
theorem claim_C9_text_only_agreement (msgs : List PomlMessage)
    (h : ∀ m ∈ msgs, ∃ s, m.content = RichContent.str s) :
    poml_response_to_openai_chat msgs =
      Except.ok (msgs.map fun m => Json.obj [("role", Json.str (speaker_to_role m.speaker)), ("content", richContentToDict m.content)]) ∧
    poml_response_to_langchain msgs =
      (msgs.map fun m => Json.obj [("type", Json.str (speakerStr m.speaker)), ("data", Json.obj [("content", richContentToDict m.content)])]) ∧
    message_dict_format msgs =
      (msgs.map fun m => Json.obj [("speaker", Json.str (speakerStr m.speaker)), ("content", richContentToDict m.content)]) ∧
    (dict_format ⟨msgs, none, none, none⟩).getKey "messages" = some (Json.arr (message_dict_format msgs)) := by
  refine ⟨?_, ?_, rfl, rfl⟩
  · induction msgs with
    | nil => rfl
    | cons m rest ih =>
        obtain ⟨s, hs⟩ := h m (by simp)
        have ihr := ih (fun x hx => h x (List.mem_cons_of_mem _ hx))
        simp only [poml_response_to_openai_chat, ihr, List.map_cons]
        obtain ⟨sp, c⟩ := m
        subst hs
        cases sp <;> rfl
  · induction msgs with
    | nil => rfl
    | cons m rest ih =>
        obtain ⟨s, hs⟩ := h m (by simp)
        have ihr := ih (fun x hx => h x (List.mem_cons_of_mem _ hx))
        simp only [poml_response_to_langchain, ihr, List.map_cons]
        obtain ⟨sp, c⟩ := m
        subst hs
        rfl

/-- C9 witness: the agreement instantiated on a two-message all-string
envelope, evaluated on the OpenAIChat side. -/
theorem claim_C9_witness :
    poml_response_to_openai_chat [⟨Speaker.human, RichContent.str "Hello"⟩, ⟨Speaker.tool, RichContent.str "x"⟩] =
      Except.ok [Json.obj [("role", Json.str "user"), ("content", Json.str "Hello")],
        Json.obj [("role", Json.str "tool"), ("content", Json.str "x")]] :=
  (claim_C9_text_only_agreement [⟨Speaker.human, RichContent.str "Hello"⟩, ⟨Speaker.tool, RichContent.str "x"⟩]
    (by
      intro m hm
      rcases List.mem_cons.mp hm with rfl | hm2
      · exact ⟨"Hello", rfl⟩
      · rcases List.mem_cons.mp hm2 with rfl | hm3
        · exact ⟨"x", rfl⟩
        · cases hm3)).1
